import Mathlib

/-!
Verification of `my-fancy-zsh-git-prompt` (src/src/main.rs): a shallow
embedding of the program's data model and functions, followed by theorems
about its rendering, status summarization, directory labelling and
top-level output behaviour.

Modelling conventions:
* `GitError` stands for `git2::Error`; its payload is irrelevant to the
  program, which only branches on success/failure.
* Paths (`std::path::PathBuf`) are modelled as lists of components; a
  component is `Option String` (`none` = a component that is not valid
  UTF-8, mirroring `OsStr::to_str` returning `None`).  Rust `Path`
  equality and `strip_prefix` operate on components, which the list
  model mirrors.
* The ambient filesystem (`Path::is_dir`) is a predicate packaged in
  `Fs`, passed explicitly where the Rust code queries it implicitly.
* A git object id (`git2::Oid`) is modelled by its hexadecimal rendering,
  a `String`, since the program only ever formats it with `{}`.
* `head_reference.target().unwrap()` can panic in Rust; `summarize`
  therefore returns `Option ZshOutput`, with `none` marking the panic.
-/

abbrev GitError := Unit

/-- Embeds `struct ZshOutput` of main.rs: text, boldness flag, optional
color name. -/
structure ZshOutput where
  is_bold : Bool
  color : Option String
  text : String
deriving Repr, DecidableEq

/-- Embeds `ZshOutput::new`. -/
def ZshOutput.new (text : String) : ZshOutput :=
  { text := text, is_bold := false, color := none }

/-- Embeds `ZshOutput::set_color`. -/
def ZshOutput.set_color (self : ZshOutput) (color : String) : ZshOutput :=
  { self with color := some color }

/-- Embeds `ZshOutput::make_bold`. -/
def ZshOutput.make_bold (self : ZshOutput) : ZshOutput :=
  { self with is_bold := true }

/-- Embeds `ZshOutput::output`, keeping the imperative `push_str`
sequence of the source (note: the color-on marker the source emits is
`%F{` followed by the color name followed by `%}`). -/
def ZshOutput.output (self : ZshOutput) : String := Id.run do
  let mut result := ""
  if self.is_bold then
    result := result ++ "%B"
  match self.color with
  | some c =>
      result := result ++ "%F\x7b"
      result := result ++ c
      result := result ++ "%\x7d"
  | none => pure ()
  result := result ++ self.text
  match self.color with
  | some _ => result := result ++ "%f"
  | none => pure ()
  if self.is_bold then
    result := result ++ "%b"
  return result

/-- Embeds `git2::RepositoryState`. -/
inductive RepositoryState where
  | Clean
  | Merge
  | Revert
  | RevertSequence
  | CherryPick
  | CherryPickSequence
  | Bisect
  | Rebase
  | RebaseInteractive
  | RebaseMerge
  | ApplyMailbox
  | ApplyMailboxOrRebase
deriving Repr, DecidableEq

/-- Model of the reference returned by `Repository::head()`:
`is_branch`, `shorthand()` (`none` when the short name is not valid
UTF-8) and `target()` (`none` when the reference is symbolic; the oid is
modelled by its hex rendering). -/
structure HeadRef where
  is_branch : Bool
  shorthand : Option String
  target : Option String
deriving Repr, DecidableEq

/-- Model of `git2::DiffStats`: the program only reads
`files_changed()`. -/
structure DiffStats where
  files_changed : Nat
deriving Repr, DecidableEq

/-- Model of `git2::Diff`: the program only calls `.stats()`, which can
fail. -/
structure Diff where
  stats : Except GitError DiffStats
deriving Repr

/-- Model of one `git2::Status` value: the program only reads
`is_wt_new()` (the WT_NEW bit: a new untracked file). -/
structure Status where
  is_wt_new : Bool
deriving Repr, DecidableEq

/-- Model of one `git2::StatusEntry`: the program only reads
`.status()`. -/
structure StatusEntry where
  status : Status
deriving Repr, DecidableEq

/-- A path component; `none` models an `OsStr` component that is not
valid UTF-8. -/
abbrev OsSeg := Option String

/-- A `std::path::PathBuf`, as its list of components (Rust `Path`
equality and `strip_prefix` compare components). -/
abbrev PathBuf := List OsSeg

/-- Model of a `git2::Repository` handle: the results of the read-only
queries the program performs on it.  Each `Except` field is the result
of the corresponding fallible libgit2 call. -/
structure Repository where
  state : RepositoryState
  head : Except GitError HeadRef
  diff_index_to_workdir : Except GitError Diff
  statuses : Except GitError (List StatusEntry)
  workdir : Option PathBuf
deriving Repr

/-- Embeds `any_files_changed`: `diff_index_to_workdir(None, None)
.and_then(|diff| diff.stats()).and_then(|stats|
Ok(stats.files_changed())).map_or(false, |count| count > 0)`. -/
def any_files_changed (repository : Repository) : Bool :=
  match (repository.diff_index_to_workdir.bind (fun diff => diff.stats)).map
      (fun stats => stats.files_changed) with
  | .ok count => count > 0
  | .error _ => false

/-- Embeds `any_untracked_files`: `statuses(None).map_or(false,
|statuses| statuses.iter().any(|entry| entry.status().is_wt_new()))`. -/
def any_untracked_files (repository : Repository) : Bool :=
  match repository.statuses with
  | .ok statuses => statuses.any (fun entry => entry.status.is_wt_new)
  | .error _ => false

/-- Embeds the `let branch_name = ...` binding of `summarize`: the short
name (with the `"(unknown branch)"` fallback of `unwrap_or_else`) for a
branch head, otherwise `target()` (whose `unwrap` panic is deferred to
`summarize`, hence the `Option`). -/
def branch_name (head_reference : HeadRef) : Option String :=
  if head_reference.is_branch then
    some (head_reference.shorthand.getD "(unknown branch)")
  else
    head_reference.target

/-- Embeds `summarize`.  Returns `none` exactly when the Rust code would
panic, i.e. on `head_reference.target().unwrap()` with a symbolic (no
target) non-branch head reference. -/
def summarize (repository : Repository) : Option ZshOutput :=
  match repository.state with
  | .Clean =>
      match repository.head with
      | .ok head_reference =>
          match branch_name head_reference with
          | none => none
          | some branch_name =>
              if any_files_changed repository || any_untracked_files repository then
                let text := branch_name ++ "*"
                some ((ZshOutput.new text).set_color "red")
              else
                some ((ZshOutput.new branch_name).set_color "blue")
      | .error _ => some ((ZshOutput.new "(no commits yet)").set_color "yellow")
  | .Merge => some ((ZshOutput.new "(merging)").set_color "magenta")
  | .Revert => some ((ZshOutput.new "(reverting)").set_color "magenta")
  | .RevertSequence => some ((ZshOutput.new "(reverting)").set_color "magenta")
  | .CherryPick => some ((ZshOutput.new "(cherry-picking)").set_color "magenta")
  | .CherryPickSequence => some ((ZshOutput.new "(cherry-picking)").set_color "magenta")
  | .Bisect => some ((ZshOutput.new "(bisecting)").set_color "magenta")
  | .Rebase => some ((ZshOutput.new "(rebasing)").set_color "magenta")
  | .RebaseInteractive => some ((ZshOutput.new "(rebasing)").set_color "magenta")
  | .RebaseMerge => some ((ZshOutput.new "(rebasing)").set_color "magenta")
  | .ApplyMailbox => some ((ZshOutput.new "(mailbox-applying)").set_color "magenta")
  | .ApplyMailboxOrRebase => some ((ZshOutput.new "(mailbox-applying)").set_color "magenta")

/-- The ambient filesystem, for `Path::is_dir`. -/
structure Fs where
  is_dir : PathBuf → Bool

/-- `Path::to_str`: `some` iff every component is valid UTF-8; the
resulting text of a relative path joins components with `/` (empty path
renders as the empty string). -/
def PathBuf.to_str (p : PathBuf) : Option String :=
  (p.mapM id).map (String.intercalate "/")

/-- Embeds `struct DirectoryContext` of main.rs. -/
structure DirectoryContext where
  path : PathBuf
  repository : Option Repository

/-- Embeds `DirectoryContext::directory_short_name`: `if path.is_dir()
then path.file_name().map(|n| n.to_str().map(..)).unwrap_or(None) else
None`.  `file_name()` is the last component (`none` on an empty
path). -/
def DirectoryContext.directory_short_name (_self : DirectoryContext) (fs : Fs)
    (path : PathBuf) : Option String :=
  if fs.is_dir path then
    match path.getLast? with
    | some name_os_str => name_os_str
    | none => none
  else
    none

/-- Embeds `DirectoryContext::current_directory_short_name`. -/
def DirectoryContext.current_directory_short_name (self : DirectoryContext)
    (fs : Fs) : Option String :=
  self.directory_short_name fs self.path

/-- Embeds `DirectoryContext::format_subdirectory_path`.  Rust
`Path::strip_prefix` succeeds iff the components of the base are a
prefix of the components of the path, yielding the remaining
components. -/
def DirectoryContext.format_subdirectory_path (self : DirectoryContext) (fs : Fs)
    (repository_path : Option PathBuf)
    (current_working_directory : PathBuf) : Option String :=
  match repository_path with
  | some repository_path =>
      match self.directory_short_name fs repository_path with
      | some short_name =>
          let result := short_name ++ "/"
          let diff : Except Unit PathBuf :=
            if repository_path.isPrefixOf current_working_directory then
              Except.ok (current_working_directory.drop repository_path.length)
            else
              Except.error ()
          let result :=
            match diff with
            | .ok diff_path =>
                match diff_path.to_str with
                | some diff_path_str => result ++ diff_path_str
                | none => result
            | .error _ => result
          some result
      | none => none
  | none => none

/-- Embeds `DirectoryContext::paths_match`. -/
def DirectoryContext.paths_match (_self : DirectoryContext)
    (repository_path : Option PathBuf)
    (current_working_directory : PathBuf) : Bool :=
  match repository_path with
  | some repository_path => repository_path == current_working_directory
  | none => false

/-- Embeds `DirectoryContext::path_summary`. -/
def DirectoryContext.path_summary (self : DirectoryContext) (fs : Fs) :
    Option String :=
  match self.repository with
  | some repository =>
      let repository_workdir := repository.workdir
      if self.paths_match repository_workdir self.path then
        self.current_directory_short_name fs
      else
        self.format_subdirectory_path fs repository_workdir self.path
  | none => self.current_directory_short_name fs

/-- Embeds `impl Display for DirectoryContext`: the summary, or nothing
when it is absent. -/
def DirectoryContext.fmt (self : DirectoryContext) (fs : Fs) : String :=
  match self.path_summary fs with
  | some name => name
  | none => ""

/-- Embeds `print_details`: the full line written by `println!("{} {} ",
..)` (including the final newline).  `none` marks a panic propagated
from `summarize`. -/
def print_details (fs : Fs) (dir : DirectoryContext) : Option String :=
  match dir.repository with
  | some repository =>
      (summarize repository).map
        (fun s => dir.fmt fs ++ " " ++ s.output ++ " " ++ "\n")
  | none =>
      let output := ((ZshOutput.new "(not repo)").set_color "blue").make_bold
      some (dir.fmt fs ++ " " ++ output.output ++ " " ++ "\n")

/-- `std::io::Error`, as returned by `current_dir()`. -/
abbrev OsError := Unit

/-- The process inputs: the filesystem, the result of
`env::current_dir()`, and what `Repository::discover` returns for a
given path. -/
structure World where
  fs : Fs
  current_dir : Except OsError PathBuf
  discover : PathBuf → Except GitError Repository

/-- Embeds `fn main`: the pair (stdout contents, exit code); `none`
marks a panic (abnormal termination). -/
def main_fn (w : World) : Option (String × Nat) :=
  match w.current_dir with
  | .error _ => some ("", 0)
  | .ok dir_path =>
      let dir_context : DirectoryContext := { path := dir_path, repository := none }
      match w.discover dir_path with
      | .error _ => (print_details w.fs dir_context).map (fun out => (out, 0))
      | .ok repository =>
          (print_details w.fs { dir_context with repository := some repository }).map
            (fun out => (out, 0))

/-! ## Spec-side definitions and theorems -/

/-- The rendering prescribed by the markup contract, as the ordered
concatenation bold-on, color-on, text, color-off, bold-off, each pair
emitted iff the corresponding flag/field is set.  The color-on marker is
`%F\x7b<colorname>%\x7d`, matching what the code emits (the claim's
`%F\x7b<colorname>\x7d`, without the `%` before the closing brace, is
refuted below). -/
def renderSpec (o : ZshOutput) : String :=
  (if o.is_bold then "%B" else "") ++
  (match o.color with
   | some c => ("%F\x7b" ++ c) ++ "%\x7d"
   | none => "") ++
  o.text ++
  (match o.color with
   | some _ => "%f"
   | none => "") ++
  (if o.is_bold then "%b" else "")

/-- C1 (counterexample): the claim asserts the color-on marker is
exactly `%F\x7b<colorname>\x7d`; but for the label with text `x`,
color `red`, no bold, the rendered markup is `%F\x7bred%\x7dx%f`, not
`%F\x7bred\x7dx%f` — the code writes a `%` before the closing brace. -/
theorem markup_color_marker_c1_counterexample :
    ((ZshOutput.new "x").set_color "red").output ≠ "%F\x7bred\x7dx%f" := by
  decide

/-- C1 (amended): for every `StatusLabel`, the rendered markup is the
ordered concatenation bold-on (`%B`), color-on (`%F\x7b<colorname>%\x7d`),
text, color-off (`%f`), bold-off (`%b`), each marker pair emitted iff
the corresponding flag/field is set. -/
theorem markup_render_order_c1 (o : ZshOutput) : o.output = renderSpec o := by
  obtain ⟨b, c, t⟩ := o
  cases b <;> cases c <;>
    simp [ZshOutput.output, renderSpec, Id.run, String.append_assoc] <;> rfl

/-- The fixed label text the spec assigns to each non-`Clean` repository
state. -/
def stateLabelSpec : RepositoryState → String
  | .Clean => ""
  | .Merge => "(merging)"
  | .Revert => "(reverting)"
  | .RevertSequence => "(reverting)"
  | .CherryPick => "(cherry-picking)"
  | .CherryPickSequence => "(cherry-picking)"
  | .Bisect => "(bisecting)"
  | .Rebase => "(rebasing)"
  | .RebaseInteractive => "(rebasing)"
  | .RebaseMerge => "(rebasing)"
  | .ApplyMailbox => "(mailbox-applying)"
  | .ApplyMailboxOrRebase => "(mailbox-applying)"

/-- Concrete fixture: a detached head at a commit. -/
def headDetached : HeadRef :=
  { is_branch := false, shorthand := none, target := some "deadbeef" }

/-- Concrete fixture: head on the branch `main`. -/
def headMain : HeadRef :=
  { is_branch := true, shorthand := some "main", target := some "0123abcd" }

/-- Concrete fixture: a repository mid-merge. -/
def repoMerge : Repository :=
  { state := .Merge, head := .error (), diff_index_to_workdir := .error (),
    statuses := .error (), workdir := none }

/-- Concrete fixture: a clean repository whose diff and status scans
fail, with a detached head. -/
def repoDetached : Repository :=
  { state := .Clean, head := .ok headDetached,
    diff_index_to_workdir := .error (),
    statuses := .error (), workdir := none }

/-- Concrete fixture: a repository with no commits yet. -/
def repoNoCommits : Repository :=
  { state := .Clean, head := .error (), diff_index_to_workdir := .error (),
    statuses := .error (), workdir := none }

lemma summarize_head_error (r : Repository) (hclean : r.state = .Clean)
    (hhead : r.head = .error ()) :
    summarize r = some ((ZshOutput.new "(no commits yet)").set_color "yellow") := by
  obtain ⟨state, head, diff, statuses, workdir⟩ := r
  dsimp only at hclean hhead
  subst hclean
  subst hhead
  rfl

lemma summarize_isSome (r : Repository)
    (hinv : ∀ hr : HeadRef, r.head = .ok hr → hr.is_branch = false →
      hr.target.isSome = true) :
    (summarize r).isSome = true := by
  obtain ⟨state, head, diff, statuses, workdir⟩ := r
  cases state <;> try rfl
  cases head with
  | error e => rfl
  | ok hr =>
      cases hbn : branch_name hr with
      | none =>
          exfalso
          have hbr : hr.is_branch = false := by
            by_contra hb
            rw [Bool.not_eq_false] at hb
            simp [branch_name, hb] at hbn
          have htg := hinv hr rfl hbr
          rw [branch_name, hbr] at hbn
          simp at hbn
          rw [hbn] at htg
          simp at htg
      | some b =>
          simp [summarize, hbn]
          split <;> simp

/-- C2: status summarization is total.  Under the libgit2 invariant that
`Repository::head()` only returns direct references (a non-branch head
reference carries a target oid), `summarize` never panics; a diff
failure degrades to "no files changed", a status-scan failure degrades
to "no untracked files", and a head-resolution failure degrades to the
`"(no commits yet)"` label rather than aborting. -/
theorem summarize_total_c2 (r : Repository)
    (hinv : ∀ hr : HeadRef, r.head = .ok hr → hr.is_branch = false →
      hr.target.isSome = true) :
    (summarize r).isSome = true ∧
    (r.diff_index_to_workdir = .error () → any_files_changed r = false) ∧
    (r.statuses = .error () → any_untracked_files r = false) ∧
    (r.state = .Clean → r.head = .error () →
      summarize r = some ((ZshOutput.new "(no commits yet)").set_color "yellow")) := by
  refine ⟨summarize_isSome r hinv, ?_, ?_, summarize_head_error r⟩
  · intro h
    simp [any_files_changed, h, Except.bind, Except.map]
  · intro h
    simp [any_untracked_files, h]

/-- C2 witness: a concrete clean repository with a detached head and
failing diff/status scans is summarized without a panic. -/
theorem summarize_total_c2_witness : (summarize repoDetached).isSome = true := by
  refine (summarize_total_c2 _ ?_).1
  intro hr h hbr
  simp only [repoDetached] at h
  injection h with h2
  subst h2
  rfl

/-- C4: a repository whose operation state is not `Clean` is rendered as
the fixed, magenta, non-bold label of its state, and the result depends
on nothing but the state (no head, diff or status inspection). -/
theorem non_clean_state_label_c4 (r : Repository) (h : r.state ≠ .Clean) :
    summarize r = some { is_bold := false, color := some "magenta", text := stateLabelSpec r.state } ∧
    ∀ r' : Repository, r'.state = r.state → summarize r' = summarize r := by
  obtain ⟨state, head, diff, statuses, workdir⟩ := r
  cases state
  case Clean => exact absurd rfl h
  all_goals
    refine ⟨rfl, ?_⟩
    rintro ⟨s', h', d', st', w'⟩ hs
    dsimp only at hs
    subst hs
    rfl

/-- C4 witness: the mid-merge fixture renders as the magenta
`"(merging)"` label. -/
theorem non_clean_state_label_c4_witness :
    summarize repoMerge = some { is_bold := false, color := some "magenta", text := stateLabelSpec .Merge } :=
  (non_clean_state_label_c4 repoMerge (by decide)).1

/-- C7: a clean-state repository whose head resolution fails (no commits
yet) is rendered as the yellow `"(no commits yet)"` label; the failure
is absorbed, not propagated. -/
theorem no_commits_label_c7 (r : Repository) (hclean : r.state = .Clean)
    (hhead : r.head = .error ()) :
    summarize r = some { is_bold := false, color := some "yellow", text := "(no commits yet)" } :=
  summarize_head_error r hclean hhead

/-- C7 witness: the no-commits fixture gets the yellow label. -/
theorem no_commits_label_c7_witness :
    summarize repoNoCommits = some { is_bold := false, color := some "yellow", text := "(no commits yet)" } :=
  no_commits_label_c7 repoNoCommits rfl rfl

/-- The dirtiness criterion as the spec words it: the
working-tree-vs-index diff succeeded and reports at least one changed
file, or the status scan succeeded and some entry is a new untracked
file (so a failed diff or scan contributes nothing). -/
def dirtySpec (r : Repository) : Prop :=
  (∃ stats : DiffStats, r.diff_index_to_workdir.bind Diff.stats = .ok stats ∧
    0 < stats.files_changed) ∨
  (∃ entries : List StatusEntry, r.statuses = .ok entries ∧
    ∃ entry ∈ entries, entry.status.is_wt_new = true)

lemma dirtySpec_iff (r : Repository) :
    dirtySpec r ↔ (any_files_changed r || any_untracked_files r) = true := by
  unfold dirtySpec any_files_changed any_untracked_files
  cases hd : r.diff_index_to_workdir.bind Diff.stats with
  | ok stats =>
      cases hs : r.statuses with
      | ok entries => simp [hd, hs, Except.map, List.any_eq_true]
      | error e => simp [hd, hs, Except.map]
  | error e =>
      cases hs : r.statuses with
      | ok entries => simp [hd, hs, Except.map, List.any_eq_true]
      | error e2 => simp [hd, hs, Except.map]

/-- Concrete fixture: clean state, branch `main`, no diff changes, one
new untracked file. -/
def repoDirtyMain : Repository :=
  { state := .Clean, head := .ok headMain,
    diff_index_to_workdir := .ok { stats := .ok { files_changed := 0 } },
    statuses := .ok [{ status := { is_wt_new := true } }], workdir := none }

/-- C3: a clean-state repository whose head resolves is classified dirty
iff the diff reports a changed file or some status entry is a new
untracked file (failures counting as no changes, per `dirtySpec`); when
dirty the label is the branch label plus `*` in red, otherwise the
branch label in blue. -/
theorem clean_dirtiness_c3 (r : Repository) (hr : HeadRef) (b : String)
    (hclean : r.state = .Clean) (hhead : r.head = .ok hr)
    (hb : branch_name hr = some b) :
    (dirtySpec r → summarize r = some ((ZshOutput.new (b ++ "*")).set_color "red")) ∧
    (¬ dirtySpec r → summarize r = some ((ZshOutput.new b).set_color "blue")) := by
  constructor
  · intro hdirty
    have hd : (any_files_changed r || any_untracked_files r) = true :=
      (dirtySpec_iff r).mp hdirty
    simp [summarize, hclean, hhead, hb, hd]
  · intro hnot
    have hd : (any_files_changed r || any_untracked_files r) = false := by
      cases h2 : (any_files_changed r || any_untracked_files r) with
      | false => rfl
      | true => exact absurd ((dirtySpec_iff r).mpr h2) hnot
    simp [summarize, hclean, hhead, hb, hd]

/-- C3 witness: the untracked-file fixture is dirty and renders as red
`main*`. -/
theorem clean_dirtiness_c3_witness :
    summarize repoDirtyMain = some ((ZshOutput.new ("main" ++ "*")).set_color "red") :=
  (clean_dirtiness_c3 repoDirtyMain headMain "main" rfl rfl rfl).1
    ((dirtySpec_iff repoDirtyMain).mpr (by decide))

/-- C8: for a clean-state repository whose head resolves, the branch
label is the head's short name when the head is a named branch, and the
full resolved target commit id otherwise (detached head); the summary's
text is that label, possibly suffixed with `*`. -/
theorem branch_label_c8 (r : Repository) (hr : HeadRef)
    (hclean : r.state = .Clean) (hhead : r.head = .ok hr) :
    (∀ s : String, hr.is_branch = true → hr.shorthand = some s →
      branch_name hr = some s) ∧
    (hr.is_branch = false → branch_name hr = hr.target) ∧
    (∀ b : String, branch_name hr = some b →
      ∃ o : ZshOutput, summarize r = some o ∧ (o.text = b ++ "*" ∨ o.text = b)) := by
  refine ⟨?_, ?_, ?_⟩
  · intro s hbr hsh
    simp [branch_name, hbr, hsh]
  · intro hbr
    simp [branch_name, hbr]
  · intro b hb
    cases hf : (any_files_changed r || any_untracked_files r) with
    | true =>
        refine ⟨(ZshOutput.new (b ++ "*")).set_color "red", ?_, Or.inl rfl⟩
        simp [summarize, hclean, hhead, hb, hf]
    | false =>
        refine ⟨(ZshOutput.new b).set_color "blue", ?_, Or.inr rfl⟩
        simp [summarize, hclean, hhead, hb, hf]

/-- C8 witness: the detached fixture's label text is the full target
commit id `deadbeef` (possibly starred). -/
theorem branch_label_c8_witness :
    ∃ o : ZshOutput, summarize repoDetached = some o ∧
      (o.text = "deadbeef" ++ "*" ∨ o.text = "deadbeef") :=
  (branch_label_c8 repoDetached headDetached rfl rfl).2.2 "deadbeef" rfl

lemma isPrefixOf_append_self (l r : PathBuf) : l.isPrefixOf (l ++ r) = true := by
  induction l with
  | nil => simp [List.isPrefixOf]
  | cons a t ih => simp [List.isPrefixOf, ih]

lemma isPrefixOf_self (l : PathBuf) : l.isPrefixOf l = true := by
  have h := isPrefixOf_append_self l []
  rwa [List.append_nil] at h

lemma beq_append_ne (l r : PathBuf) (h : r ≠ []) : (l == l ++ r) = false := by
  rw [beq_eq_false_iff_ne]
  intro he
  have : l.length = l.length + r.length := by
    conv_lhs => rw [he]
    simp
  have : r.length = 0 := by omega
  exact h (List.length_eq_zero.mp this)

lemma drop_length_append (l r : PathBuf) : (l ++ r).drop l.length = r := by
  induction l with
  | nil => rfl
  | cons a t ih => simp [ih]

/-- C5: the directory label.  (a) When the working directory equals the
repository's top-level working directory, the label is its short (last
path-segment) name.  (b) When the working directory is a strict
subdirectory of the repository root, the label is
`<repo-short-name>/<relative-path-from-root>`.  (c) Without a
repository, the label is the short name of the current directory (or
nothing when the name is undecodable or the path is not an existing
directory).  (d) A path-relativization failure silently omits the
trailing relative segment (leaving `<repo-short-name>/`). -/
theorem directory_label_c5 (fs : Fs) (cwd : PathBuf) :
    (∀ r : Repository, ∀ name : String, r.workdir = some cwd →
      fs.is_dir cwd = true → cwd.getLast? = some (some name) →
      DirectoryContext.path_summary { path := cwd, repository := some r } fs = some name) ∧
    (∀ r : Repository, ∀ wd rest : PathBuf, ∀ sn s : String,
      r.workdir = some wd → cwd = wd ++ rest → rest ≠ [] →
      fs.is_dir wd = true → wd.getLast? = some (some sn) →
      PathBuf.to_str rest = some s →
      DirectoryContext.path_summary { path := cwd, repository := some r } fs =
        some ((sn ++ "/") ++ s)) ∧
    (DirectoryContext.path_summary { path := cwd, repository := none } fs =
      (if fs.is_dir cwd = true then cwd.getLast?.join else none)) ∧
    (∀ r : Repository, ∀ wd : PathBuf, ∀ sn : String,
      r.workdir = some wd → wd.isPrefixOf cwd = false →
      fs.is_dir wd = true → wd.getLast? = some (some sn) →
      DirectoryContext.path_summary { path := cwd, repository := some r } fs =
        some (sn ++ "/")) := by
  refine ⟨?_, ?_, ?_, ?_⟩
  · intro r name hw hdir hlast
    simp [DirectoryContext.path_summary, DirectoryContext.paths_match,
      DirectoryContext.current_directory_short_name,
      DirectoryContext.directory_short_name, hw, hdir, hlast]
  · intro r wd rest sn s hw hcwd hrest hdir hlast hstr
    subst hcwd
    have hm : (wd == wd ++ rest) = false := beq_append_ne wd rest hrest
    simp [DirectoryContext.path_summary, DirectoryContext.paths_match, hw, hm,
      DirectoryContext.format_subdirectory_path,
      DirectoryContext.directory_short_name, hdir, hlast,
      isPrefixOf_append_self, drop_length_append, hstr]
  · simp only [DirectoryContext.path_summary,
      DirectoryContext.current_directory_short_name,
      DirectoryContext.directory_short_name]
    cases hdir : fs.is_dir cwd <;> cases hlast : cwd.getLast? <;>
      simp [Option.join]
  · intro r wd sn hw hpre hdir hlast
    have hm : (wd == cwd) = false := by
      rw [beq_eq_false_iff_ne]
      intro he
      rw [he] at hpre
      rw [isPrefixOf_self] at hpre
      cases hpre
    simp [DirectoryContext.path_summary, DirectoryContext.paths_match, hw, hm,
      DirectoryContext.format_subdirectory_path,
      DirectoryContext.directory_short_name, hdir, hlast, hpre]

/-- Filesystem fixture where every path is a directory. -/
def fsAll : Fs := { is_dir := fun _ => true }

/-- Concrete fixture: a repository rooted at `/home/repo`. -/
def repoAtHomeRepo : Repository :=
  { state := .Clean, head := .error (), diff_index_to_workdir := .error (),
    statuses := .error (), workdir := some [some "home", some "repo"] }

/-- C5 witness: from `/home/repo/sub` inside a repository rooted at
`/home/repo`, the directory label is `repo/sub`. -/
theorem directory_label_c5_witness :
    DirectoryContext.path_summary
      { path := [some "home", some "repo", some "sub"], repository := some repoAtHomeRepo }
      fsAll = some (("repo" ++ "/") ++ "sub") :=
  (directory_label_c5 fsAll [some "home", some "repo", some "sub"]).2.1
    repoAtHomeRepo [some "home", some "repo"] [some "sub"] "repo" "sub"
    rfl rfl (by decide) rfl rfl rfl

/-- C6: top-level output.  When the current working directory resolves,
the process writes exactly one line, `<directory-label> <rendered
status-markup> ` with a single trailing space followed by a newline, and
exits 0; when it cannot be determined, nothing is printed and the exit
code is still 0.  (Assumes the libgit2 invariant that `head()` returns
direct references, ruling out the `target().unwrap()` panic.) -/
theorem main_output_shape_c6 (w : World)
    (hinv : ∀ (p : PathBuf) (r : Repository) (hr : HeadRef),
      w.discover p = .ok r → r.head = .ok hr → hr.is_branch = false →
      hr.target.isSome = true) :
    (w.current_dir = .error () → main_fn w = some ("", 0)) ∧
    (∀ p : PathBuf, w.current_dir = .ok p →
      ∃ (dirLabel : String) (status : ZshOutput),
        main_fn w = some (dirLabel ++ " " ++ status.output ++ " " ++ "\n", 0)) := by
  constructor
  · intro h
    simp [main_fn, h]
  · intro p hp
    cases hd : w.discover p with
    | error e =>
        refine ⟨DirectoryContext.fmt { path := p, repository := none } w.fs,
          ((ZshOutput.new "(not repo)").set_color "blue").make_bold, ?_⟩
        simp [main_fn, hp, hd, print_details]
    | ok r =>
        have hs : (summarize r).isSome = true :=
          summarize_isSome r (fun hr hh hbr => hinv p r hr hd hh hbr)
        obtain ⟨o, ho⟩ := Option.isSome_iff_exists.mp hs
        refine ⟨DirectoryContext.fmt { path := p, repository := some r } w.fs, o, ?_⟩
        simp [main_fn, hp, hd, print_details, ho]

/-- World fixture: a decodable current directory, no repository
anywhere. -/
def worldNoRepo : World :=
  { fs := fsAll, current_dir := .ok [some "home", some "dir"],
    discover := fun _ => .error () }

/-- C6 witness: the no-repository world produces one line of the
prescribed shape with exit code 0. -/
theorem main_output_shape_c6_witness :
    ∃ (dirLabel : String) (status : ZshOutput),
      main_fn worldNoRepo = some (dirLabel ++ " " ++ status.output ++ " " ++ "\n", 0) := by
  refine (main_output_shape_c6 worldNoRepo ?_).2 [some "home", some "dir"] rfl
  intro p r hr hd
  simp [worldNoRepo] at hd

/-- C9: when the current directory resolves but repository discovery
fails, the process does not fail: it prints the not-a-repository status
label — text `(not repo)`, bold, colored blue — and exits 0. -/
theorem not_repo_label_c9 (w : World) (p : PathBuf)
    (hcwd : w.current_dir = .ok p) (hdisc : w.discover p = .error ()) :
    main_fn w = some
      (DirectoryContext.fmt { path := p, repository := none } w.fs ++ " " ++
        ZshOutput.output { is_bold := true, color := some "blue", text := "(not repo)" } ++
        " " ++ "\n", 0) := by
  simp [main_fn, hcwd, hdisc, print_details, ZshOutput.new, ZshOutput.set_color,
    ZshOutput.make_bold]

/-- C9 witness: the no-repository world prints the bold blue
`(not repo)` line. -/
theorem not_repo_label_c9_witness :
    main_fn worldNoRepo = some
      (DirectoryContext.fmt { path := [some "home", some "dir"], repository := none }
          worldNoRepo.fs ++ " " ++
        ZshOutput.output { is_bold := true, color := some "blue", text := "(not repo)" } ++
        " " ++ "\n", 0) :=
  not_repo_label_c9 worldNoRepo [some "home", some "dir"] rfl rfl

/-- C10: determinism.  The printed output is a function of the current
working directory, the filesystem, and the repository state alone: two
invocations whose worlds agree on those inputs produce byte-identical
output (and identical exit behaviour). -/
theorem determinism_c10 (w₁ w₂ : World) (hfs : w₁.fs = w₂.fs)
    (hcwd : w₁.current_dir = w₂.current_dir)
    (hdisc : w₁.discover = w₂.discover) :
    main_fn w₁ = main_fn w₂ := by
  obtain ⟨fs₁, cd₁, d₁⟩ := w₁
  obtain ⟨fs₂, cd₂, d₂⟩ := w₂
  dsimp only at hfs hcwd hdisc
  subst hfs
  subst hcwd
  subst hdisc
  rfl

/-- World fixture: a second, syntactically separate copy of the
no-repository world. -/
def worldNoRepoCopy : World :=
  { fs := fsAll, current_dir := .ok [some "home", some "dir"],
    discover := fun _ => .error () }

/-- C10 witness: two invocations with identical inputs print the same
bytes. -/
theorem determinism_c10_witness : main_fn worldNoRepo = main_fn worldNoRepoCopy :=
  determinism_c10 worldNoRepo worldNoRepoCopy rfl rfl rfl
